import Mathlib

/-!
# KaizenLap — verification of the aggregation and UI-state rules

Shallow embedding of the KaizenLap repository's data model and the
operations its specification describes.  The repository ships the React
frontend (`SectionPanel.jsx`, `TotalLapTimeComparison.jsx`,
`DraggableRecommendationPanel`, `LapReview`, `RaceSelector`); the offline
statistical pipeline (best-case composite builder, pattern detector,
read API) is documented but not included in the sources, so those parts
are modelled from the specification and marked as such in their doc
comments.  All times are integer milliseconds, as served by the API
(`driver_time_ms`, `best_time_ms`, ...).
-/

namespace KaizenLap

/-- A raw section-time record: (driver, lap, section_name, elapsed_time).
Spec §3: "Section time record: (track, race, driver, lap, section_name,
elapsed_time). Immutable once ingested."  Track and race are fixed because
the composite is built per race, from that race's records only. -/
structure SectionTime where
  driver : Nat
  lap : Nat
  sectionName : String
  elapsedMs : Nat
deriving DecidableEq, Repr

/-- Modelled from the spec: the best-case composite builder is not in the
shipped sources (spec §1 excludes "the actual statistical pipeline
implementation").  Spec §4.1: "For each section name, output the minimum
observed time and the (driver, lap) that achieved it."  `List.argmin`
returns the first record attaining the minimal elapsed time, or `none`
when the section has no observation. -/
def bestForSection (recs : List SectionTime) (s : String) : Option SectionTime :=
  (recs.filter (fun r => r.sectionName = s)).argmin (·.elapsedMs)

/-- One entry of the best-case composite document, as served to the
frontend (`bestCaseSections` items carry `section_name` and
`best_time_ms`, plus the identity of the lap achieving it). -/
structure BestCaseSection where
  section_name : String
  best_time_ms : Nat
  best_driver : Nat
  best_lap : Nat
deriving DecidableEq, Repr

/-- Modelled from the spec: composite entries for the sections that have
at least one valid observation (spec §4.1: "compute the composite only
over sections with at least one valid observation"). -/
def compositeSections (recs : List SectionTime) (names : List String) :
    List BestCaseSection :=
  names.filterMap fun s =>
    (bestForSection recs s).map fun b => ⟨s, b.elapsedMs, b.driver, b.lap⟩

/-- The best-case composite document for one race.  `degraded` is the
record's "partial" flag (spec §7: "degrade the derived record ... and
mark it as partial"); `missingSections` flags the declared sections with
zero observations (spec §4.1: "must flag (not silently drop) sections
with zero observations"). -/
structure CompositeDoc where
  sections : List BestCaseSection
  missingSections : List String
  degraded : Bool
deriving DecidableEq, Repr

/-- Modelled from the spec: the composite builder for one race.  Input:
all section-time records for one race together with the race's declared
section names.  Total: it returns a document for every input ("never
fail the whole batch", spec §7). -/
def buildComposite (recs : List SectionTime) (names : List String) : CompositeDoc :=
  let missing := names.filter fun s => (recs.filter (fun r => r.sectionName = s)).isEmpty
  ⟨compositeSections recs names, missing, !missing.isEmpty⟩

/-! ## Frontend: SectionPanel.jsx -/

/-- CSS class chosen by the `Gap` component of `SectionPanel.jsx`
(and by `formatGap` of `TotalLapTimeComparison.jsx`):
`value > 0 ? 'gap-positive' : (value < 0 ? 'gap-negative' : '')`. -/
inductive GapClass where
  | positive
  | negative
  | neutral
deriving DecidableEq, Repr

/-- From `SectionPanel.jsx`: the class of a rendered gap value. -/
def gapClass (v : Int) : GapClass :=
  if 0 < v then .positive else if v < 0 then .negative else .neutral

/-- From `SectionPanel.jsx`, "Optimal (All Drivers)" row:
`<Gap value={driverTime - bestPossibleTime} />` where `driverTime` is
`section.driver_time_ms` and `bestPossibleTime` is
`section.best_possible_time_ms` (the best-case composite minimum). -/
def sectionGap (driverTimeMs bestPossibleTimeMs : Int) : Int :=
  driverTimeMs - bestPossibleTimeMs

/-! ## Frontend: TotalLapTimeComparison.jsx -/

/-- One element of the `sections` prop of `TotalLapTimeComparison`:
the fields the component reads.  `none` models an absent field (the
source guards every read with `|| 0`). -/
structure TLCSection where
  driver_time_ms : Option Nat
  best_possible_time_ms : Option Nat
deriving DecidableEq, Repr

/-- One element of the `bestCaseSections` prop of
`TotalLapTimeComparison` (from `/api/tracks/{id}/best-case`). -/
structure TLCBestCase where
  section_name : String
  best_time_ms : Option Nat
deriving DecidableEq, Repr

/-- From `TotalLapTimeComparison.jsx` lines 39-41:
`sections.reduce((sum, section) => sum + (section.driver_time_ms || 0), 0)`. -/
def driverTotalTime (sections : List TLCSection) : Nat :=
  sections.foldl (fun sum s => sum + s.driver_time_ms.getD 0) 0

/-- From `TotalLapTimeComparison.jsx` lines 44-61: the optimal/composite total
lap time.  Composite view sums the section times themselves; a regular
lap with best-case data sums `best_time_ms` over `bestCaseSections`;
otherwise it falls back to `best_possible_time_ms`. -/
def optimalTotalTime (isComposite : Bool) (sections : List TLCSection)
    (bestCaseSections : List TLCBestCase) : Nat :=
  if isComposite then
    sections.foldl (fun sum s => sum + s.driver_time_ms.getD 0) 0
  else if !bestCaseSections.isEmpty then
    bestCaseSections.foldl (fun sum s => sum + s.best_time_ms.getD 0) 0
  else
    sections.foldl (fun sum s => sum + s.best_possible_time_ms.getD 0) 0

/-- From `TotalLapTimeComparison.jsx` line 63:
`const timeGap = driverTotalTime - optimalTotalTime;`. -/
def timeGap (isComposite : Bool) (sections : List TLCSection)
    (bestCaseSections : List TLCBestCase) : Int :=
  (driverTotalTime sections : Int) -
    optimalTotalTime isComposite sections bestCaseSections

/-- Modelled from the spec: the `bestCaseSections` payload served to the
frontend, one entry per declared section with at least one observation,
carrying that section's composite minimum (`best_time_ms`).  The API
implementation is not in the shipped sources. -/
def bestCaseList (recs : List SectionTime) (names : List String) :
    List TLCBestCase :=
  names.filterMap fun s =>
    (bestForSection recs s).map fun b => ⟨s, some b.elapsedMs⟩

/-- Modelled from the spec: the document store keyed by race id
(spec §6: records "keyed by natural identifiers").  The batch writer is
not in the shipped sources. -/
def Store : Type := Nat → Option CompositeDoc

/-- Modelled from the spec: one batch run for one race replaces that
race's derived document wholesale (spec §3: "Derived, recomputed
wholesale per race; no incremental update rule"; spec §5: jobs "write
disjoint document sets"). -/
def processRace (store : Store) (race : Nat) (recs : List SectionTime)
    (names : List String) : Store :=
  fun r => if r = race then some (buildComposite recs names) else store r

end KaizenLap

namespace KaizenLap

/-- The composite for a section is defined exactly when the section has
at least one recorded observation. -/
theorem bestForSection_isSome_iff (recs : List SectionTime) (s : String) :
    (∃ b, bestForSection recs s = some b) ↔ ∃ r ∈ recs, r.sectionName = s := by
  constructor
  · rintro ⟨b, hb⟩
    have hm := List.argmin_mem hb
    have hm2 := List.mem_filter.mp hm
    exact ⟨b, hm2.1, by simpa using hm2.2⟩
  · rintro ⟨r, hr, hrs⟩
    have hmem : r ∈ recs.filter (fun r => r.sectionName = s) := by
      simp [List.mem_filter, hr, hrs]
    have hne : recs.filter (fun r => r.sectionName = s) ≠ [] :=
      List.ne_nil_of_mem hmem
    rcases ho : bestForSection recs s with _ | b
    · exact absurd (List.argmin_eq_none.mp ho) hne
    · exact ⟨b, rfl⟩

/-- Claim C1 — For every race and section name with at least one recorded
observation, the best-case composite for that section is `some b` where
`b` is a recorded observation of that section whose elapsed time is
minimal among all recorded observations of that section (across all
drivers and laps), i.e. the minimum together with the (driver, lap)
identity that achieved it. -/
theorem bestForSection_is_min (recs : List SectionTime) (s : String)
    (h : ∃ r ∈ recs, r.sectionName = s) :
    ∃ b, bestForSection recs s = some b ∧ b ∈ recs ∧ b.sectionName = s ∧
      ∀ r ∈ recs, r.sectionName = s → b.elapsedMs ≤ r.elapsedMs := by
  obtain ⟨r, hr, hrs⟩ := h
  have hmem : r ∈ recs.filter (fun r => r.sectionName = s) := by
    simp [List.mem_filter, hr, hrs]
  have hne : recs.filter (fun r => r.sectionName = s) ≠ [] :=
    List.ne_nil_of_mem hmem
  rcases ho : bestForSection recs s with _ | b
  · exact absurd (List.argmin_eq_none.mp ho) hne
  · refine ⟨b, rfl, ?_, ?_, ?_⟩
    · have := List.argmin_mem ho
      exact (List.mem_filter.mp this).1
    · have := List.argmin_mem ho
      have := (List.mem_filter.mp this).2
      simpa using this
    · intro r' hr' hr's
      have hmem' : r' ∈ recs.filter (fun r => r.sectionName = s) := by
        simp [List.mem_filter, hr', hr's]
      exact List.le_of_mem_argmin hmem' ho

/-- A concrete record set used by the witnesses: three observations of
"Section 1" (the end-to-end example of spec §8) and one of "Section 2". -/
def sampleRecs : List SectionTime :=
  [⟨1, 1, "Section 1", 35000⟩, ⟨1, 2, "Section 1", 34200⟩,
   ⟨2, 1, "Section 1", 34500⟩, ⟨2, 1, "Section 2", 41000⟩]

/-- Witness for C1: on a concrete record set, the composite for
"Section 1" is the 34200 ms observation by driver 1, lap 2. -/
theorem bestForSection_is_min_witness :
    ∃ b, bestForSection sampleRecs "Section 1" = some b ∧ b ∈ sampleRecs ∧
      b.sectionName = "Section 1" ∧
      ∀ r ∈ sampleRecs, r.sectionName = "Section 1" → b.elapsedMs ≤ r.elapsedMs :=
  bestForSection_is_min sampleRecs "Section 1"
    ⟨⟨1, 2, "Section 1", 34200⟩, by decide, by decide⟩

/-- Claim C2 — For every driver observation of a section, the reported
gap (`SectionPanel.jsx`: `driverTime - bestPossibleTime`) equals the
driver's section time minus the composite's minimum for that section;
it is nonnegative for recorded observations, and when the driver's time
equals the composite minimum the gap is exactly 0 (rendered with the
neutral class, no `+`/`-`). -/
theorem sectionGap_correct (recs : List SectionTime) (s : String)
    (b : SectionTime) (hb : bestForSection recs s = some b)
    (r : SectionTime) (hr : r ∈ recs) (hrs : r.sectionName = s) :
    sectionGap r.elapsedMs b.elapsedMs = (r.elapsedMs : Int) - b.elapsedMs ∧
    0 ≤ sectionGap r.elapsedMs b.elapsedMs ∧
    (r.elapsedMs = b.elapsedMs →
      sectionGap r.elapsedMs b.elapsedMs = 0 ∧
      gapClass (sectionGap r.elapsedMs b.elapsedMs) = .neutral) := by
  have hmem : r ∈ recs.filter (fun r => r.sectionName = s) := by
    simp [List.mem_filter, hr, hrs]
  have hle : b.elapsedMs ≤ r.elapsedMs := List.le_of_mem_argmin hmem hb
  refine ⟨rfl, ?_, ?_⟩
  · simp only [sectionGap, sub_nonneg]
    exact_mod_cast hle
  · intro heq
    simp [sectionGap, heq, gapClass]

/-- Witness for C2: driver 2's 34500 ms observation of "Section 1"
against the composite minimum 34200 ms of `sampleRecs`. -/
theorem sectionGap_correct_witness :
    sectionGap (34500 : Int) 34200 = (34500 : Int) - 34200 ∧
    0 ≤ sectionGap (34500 : Int) 34200 ∧
    ((34500 : Nat) = 34200 →
      sectionGap (34500 : Int) 34200 = 0 ∧
      gapClass (sectionGap (34500 : Int) 34200) = .neutral) := by
  have h := sectionGap_correct sampleRecs "Section 1" ⟨1, 2, "Section 1", 34200⟩
    (by decide) ⟨2, 1, "Section 1", 34500⟩ (by decide) (by decide)
  exact h

/-- A `foldl` accumulating `+ f s` from `0` is the sum of the mapped
list (shape of the `reduce` calls in `TotalLapTimeComparison.jsx`). -/
theorem foldl_add_eq_sum_map {α : Type} (f : α → Nat) (l : List α) :
    l.foldl (fun sum s => sum + f s) 0 = (l.map f).sum := by
  have key : ∀ (l : List α) (a : Nat),
      l.foldl (fun sum s => sum + f s) a = a + (l.map f).sum := by
    intro l
    induction l with
    | nil => intro a; simp
    | cons x xs ih =>
      intro a
      simp only [List.foldl_cons, List.map_cons, List.sum_cons, ih]
      ring
  simpa using key l 0

/-- Claim C3 — For every race, the theoretical fastest lap computed by
`TotalLapTimeComparison.jsx` (the optimal/composite total when viewing a
regular lap with best-case data) equals the sum, over all sections with
data, of that race's per-section composite minimums. -/
theorem optimalTotal_eq_sum_of_minimums (recs : List SectionTime)
    (names : List String) (secs : List TLCSection)
    (h : bestCaseList recs names ≠ []) :
    optimalTotalTime false secs (bestCaseList recs names) =
      (names.filterMap fun s =>
        (bestForSection recs s).map (·.elapsedMs)).sum := by
  have hne : (bestCaseList recs names).isEmpty = false := by
    simpa [List.isEmpty_iff] using h
  have hmap : (bestCaseList recs names).map (fun t => t.best_time_ms.getD 0)
      = names.filterMap fun s => (bestForSection recs s).map (·.elapsedMs) := by
    simp only [bestCaseList, List.map_filterMap, Option.map_map]
    rfl
  calc optimalTotalTime false secs (bestCaseList recs names)
      = (bestCaseList recs names).foldl (fun sum s => sum + s.best_time_ms.getD 0) 0 := by
        simp [optimalTotalTime, hne]
    _ = ((bestCaseList recs names).map (fun t => t.best_time_ms.getD 0)).sum :=
        foldl_add_eq_sum_map _ _
    _ = (names.filterMap fun s => (bestForSection recs s).map (·.elapsedMs)).sum := by
        rw [hmap]

/-- Witness for C3: with `sampleRecs` and three declared sections (one
of which has no data), the optimal total equals the sum of the two
per-section minimums, 34200 + 41000. -/
theorem optimalTotal_eq_sum_of_minimums_witness :
    optimalTotalTime false []
        (bestCaseList sampleRecs ["Section 1", "Section 2", "Section 3"]) =
      (["Section 1", "Section 2", "Section 3"].filterMap fun s =>
        (bestForSection sampleRecs s).map (·.elapsedMs)).sum :=
  optimalTotal_eq_sum_of_minimums sampleRecs _ [] (by decide)

/-- Claim C4 — For every race, the composite document lists an entry
exactly for each declared section with at least one valid observation;
the sections with zero observations are flagged in `missingSections`
(not silently dropped); and the record's partial flag (`degraded`) is
set exactly when some declared section has zero observations.  The
builder is a total function, so no input fails the batch. -/
theorem buildComposite_flags_missing (recs : List SectionTime)
    (names : List String) :
    (∀ s, s ∈ (buildComposite recs names).sections.map (·.section_name) ↔
        s ∈ names ∧ ∃ r ∈ recs, r.sectionName = s) ∧
    (∀ s, s ∈ (buildComposite recs names).missingSections ↔
        s ∈ names ∧ ∀ r ∈ recs, r.sectionName ≠ s) ∧
    ((buildComposite recs names).degraded = true ↔
        ∃ s ∈ names, ∀ r ∈ recs, r.sectionName ≠ s) := by
  have hmapname : (buildComposite recs names).sections.map (·.section_name)
      = names.filterMap fun s => (bestForSection recs s).map (fun _ => s) := by
    simp only [buildComposite, compositeSections, List.map_filterMap,
      Option.map_map]
    rfl
  have hmiss : ∀ s, s ∈ (buildComposite recs names).missingSections ↔
      s ∈ names ∧ ∀ r ∈ recs, r.sectionName ≠ s := by
    intro s
    simp [buildComposite, List.mem_filter, List.isEmpty_iff,
      List.filter_eq_nil_iff]
  refine ⟨?_, hmiss, ?_⟩
  · intro s
    rw [hmapname, List.mem_filterMap]
    constructor
    · rintro ⟨a, ha, hf⟩
      rcases hbo : bestForSection recs a with _ | b
      · rw [hbo] at hf
        simp at hf
      · rw [hbo] at hf
        simp only [Option.map_some'] at hf
        have has : a = s := Option.some.inj hf
        rw [has] at ha hbo
        exact ⟨ha, (bestForSection_isSome_iff recs s).mp ⟨b, hbo⟩⟩
    · rintro ⟨hs, hpop⟩
      obtain ⟨b, hb⟩ := (bestForSection_isSome_iff recs s).mpr hpop
      exact ⟨s, hs, by rw [hb]; rfl⟩
  · constructor
    · intro h
      have hne : (buildComposite recs names).missingSections ≠ [] := by
        simpa [buildComposite, List.isEmpty_iff] using h
      obtain ⟨s, hs⟩ := List.exists_mem_of_ne_nil _ hne
      obtain ⟨hs1, hs2⟩ := (hmiss s).mp hs
      exact ⟨s, hs1, hs2⟩
    · rintro ⟨s, hs, hnone⟩
      have hmem : s ∈ (buildComposite recs names).missingSections :=
        (hmiss s).mpr ⟨hs, hnone⟩
      have hne : (buildComposite recs names).missingSections ≠ [] :=
        List.ne_nil_of_mem hmem
      simpa [buildComposite, List.isEmpty_iff] using
        (by simpa [buildComposite] using hne : _)

/-- Witness for C4: `sampleRecs` has data for "Section 1" and
"Section 2" but not "Section 3"; the document is flagged as partial. -/
theorem buildComposite_flags_missing_witness :
    ("Section 3" ∈ (buildComposite sampleRecs
        ["Section 1", "Section 2", "Section 3"]).missingSections ↔
      "Section 3" ∈ ["Section 1", "Section 2", "Section 3"] ∧
        ∀ r ∈ sampleRecs, r.sectionName ≠ "Section 3") ∧
    (buildComposite sampleRecs
        ["Section 1", "Section 2", "Section 3"]).degraded = true :=
  ⟨(buildComposite_flags_missing sampleRecs
      ["Section 1", "Section 2", "Section 3"]).2.1 "Section 3",
   (buildComposite_flags_missing sampleRecs
      ["Section 1", "Section 2", "Section 3"]).2.2.mpr
      ⟨"Section 3", by decide, by decide⟩⟩

/-- Claim C5 — Every derived record is a pure function of the raw inputs
for one race and reprocessing is idempotent: running the composite
builder twice on the same race's inputs yields output identical to
running it once; the document written for the race is exactly
`buildComposite recs names`, independent of any prior store contents
(no cross-race state); and documents of other races are untouched. -/
theorem processRace_idempotent (store : Store) (race : Nat)
    (recs : List SectionTime) (names : List String) :
    processRace (processRace store race recs names) race recs names
      = processRace store race recs names ∧
    processRace store race recs names race
      = some (buildComposite recs names) ∧
    (∀ store2 : Store, processRace store race recs names race
      = processRace store2 race recs names race) ∧
    (∀ r, r ≠ race → processRace store race recs names r = store r) := by
  refine ⟨?_, ?_, ?_, ?_⟩
  · funext r
    by_cases h : r = race <;> simp [processRace, h]
  · simp [processRace]
  · intro store2
    simp [processRace]
  · intro r h
    simp [processRace, h]

/-- Witness for C5: a concrete empty store, race 0, and `sampleRecs`;
reprocessing is byte-identical and race 1's slot stays empty. -/
theorem processRace_idempotent_witness :
    processRace (processRace (fun _ => none) 0 sampleRecs ["Section 1"])
        0 sampleRecs ["Section 1"]
      = processRace (fun _ => none) 0 sampleRecs ["Section 1"] ∧
    processRace (fun _ => none) 0 sampleRecs ["Section 1"] 1 = none :=
  ⟨(processRace_idempotent (fun _ => none) 0 sampleRecs ["Section 1"]).1,
   (processRace_idempotent (fun _ => none) 0 sampleRecs ["Section 1"]).2.2.2
     1 (by decide)⟩

end KaizenLap

namespace KaizenLap

/-! ## Pattern detector (spec §4.3) -/

/-- Mean of a list of lap times (seconds, exact rationals).  For the
empty list, division by zero yields 0. -/
def mean (xs : List ℚ) : ℚ := xs.sum / xs.length

/-- Population variance of a list of lap times; the square of the
standard deviation the pattern detector reports (`std_lap_time_s`). -/
def lapVariance (xs : List ℚ) : ℚ :=
  (xs.map fun x => (x - mean xs) ^ 2).sum / xs.length

/-- Modelled from the spec: the pattern detector's consistency score is
not in the shipped sources.  Spec §4.3: "compute a consistency score
from the coefficient of variation of lap times"; the frontend
(`DraggableRecommendationPanel`) renders it as a percentage in [0, 1].
Modelled as `max 0 (1 - CV²)` where `CV² = variance / mean²` is the
squared coefficient of variation — a strictly monotone function of the
coefficient of variation, kept squared so the score stays inside ℚ
(no square root needed).  A zero mean yields score 0. -/
def consistencyScore (xs : List ℚ) : ℚ :=
  if mean xs = 0 then 0
  else max 0 (1 - lapVariance xs / (mean xs) ^ 2)

/-- Claim C6 — The consistency score is monotone in lap-time
variability: for two lap-time sequences with the same mean, if one has
larger variance (equivalently, since both are nonnegative, larger
standard deviation), its consistency score is not larger. -/
theorem consistencyScore_monotone (xs ys : List ℚ)
    (hmean : mean xs = mean ys) (hvar : lapVariance xs ≤ lapVariance ys) :
    consistencyScore ys ≤ consistencyScore xs := by
  by_cases hm : mean xs = 0
  · have hm' : mean ys = 0 := hmean ▸ hm
    simp [consistencyScore, hm, hm']
  · have hm' : mean ys ≠ 0 := hmean ▸ hm
    have hpos : 0 < (mean xs) ^ 2 := by positivity
    have hdiv : lapVariance xs / (mean xs) ^ 2 ≤ lapVariance ys / (mean xs) ^ 2 :=
      div_le_div_of_nonneg_right hvar hpos.le
    have hsub : 1 - lapVariance ys / (mean xs) ^ 2 ≤
        1 - lapVariance xs / (mean xs) ^ 2 := by linarith
    simp only [consistencyScore, hm, hm', if_false, ← hmean]
    exact max_le_max le_rfl hsub

/-- Witness for C6: laps [34.2, 35.0] and [34.0, 35.2] share mean 34.6;
the second sequence varies more, so its score is not larger. -/
theorem consistencyScore_monotone_witness :
    mean [(171 : ℚ) / 5, 35] = mean [34, (176 : ℚ) / 5] ∧
    lapVariance [(171 : ℚ) / 5, 35] ≤ lapVariance [34, (176 : ℚ) / 5] ∧
    consistencyScore [34, (176 : ℚ) / 5] ≤ consistencyScore [(171 : ℚ) / 5, 35] :=
  ⟨by norm_num [mean], by norm_num [lapVariance, mean],
   consistencyScore_monotone _ _ (by norm_num [mean])
     (by norm_num [lapVariance, mean])⟩

end KaizenLap

namespace KaizenLap

/-! ## Frontend: DraggableRecommendationPanel — weather rendering -/

/-- The `weather_summary` object of a weather recommendation document;
every field is optional (`undefined` checks in the source). -/
structure WeatherSummary where
  avg_air_temp_celsius : Option Int
  min_air_temp_celsius : Option Int
  max_air_temp_celsius : Option Int
  avg_track_temp_celsius : Option Int
  avg_humidity_percent : Option Int
  avg_wind_speed : Option Int
  max_wind_speed : Option Int
  rain_detected : Option Bool
deriving DecidableEq, Repr

/-- A weather recommendation document as read by
`DraggableRecommendationPanel`: the narrative text produced by the
language model (absent when the call failed or was malformed), the
numeric weather summary, and the `structured_data.data_points` count. -/
structure WeatherRec where
  recommendation_text : Option String
  weather_summary : WeatherSummary
  data_points : Option Nat
deriving DecidableEq, Repr

/-- Returns `true` when `pat` occurs as a substring of `s` (the source's
`String.prototype.includes`): `splitOn` yields more than one piece. -/
def strContains (s pat : String) : Bool := (s.splitOn pat).length != 1

/-- Boilerplate texts that the panel refuses to show as narrative
(source lines 338-339). -/
def weatherBoiler1 : String :=
  "While detailed correlation analysis requires time-aligned lap data"

/-- Second boilerplate text filtered out by the panel. -/
def weatherBoiler2 : String := "Air temperature averaged"

/-- Source lines 336-339: the narrative block is rendered only when
`recommendation_text` is present, non-blank after trimming, and not one
of the boilerplate summaries. -/
def showNarrative (r : WeatherRec) : Bool :=
  match r.recommendation_text with
  | none => false
  | some t => !(t.trim == "") && !(strContains t weatherBoiler1)
      && !(strContains t weatherBoiler2)

/-- Source lines 354-356: the numeric "Weather Conditions" block is
rendered when any of the three headline aggregates is present. -/
def showWeatherConditions (r : WeatherRec) : Bool :=
  r.weather_summary.avg_air_temp_celsius.isSome
    || r.weather_summary.avg_humidity_percent.isSome
    || r.weather_summary.avg_wind_speed.isSome

/-- What the weather panel displays: the narrative paragraph (if any),
the numeric conditions block (if any), and the data-points caption. -/
structure WeatherView where
  narrative : Option String
  conditions : Option WeatherSummary
  dataPoints : Option Nat
deriving DecidableEq, Repr

/-- The weather branch of `DraggableRecommendationPanel` (source lines
327-401) as a pure view function. -/
def renderWeather (r : WeatherRec) : WeatherView :=
  ⟨if showNarrative r then r.recommendation_text else none,
   if showWeatherConditions r then some r.weather_summary else none,
   r.data_points⟩

/-- Claim C7 — When the language-model call failed or returned malformed
output (no `recommendation_text`), the weather panel omits the narrative
but still serves every numeric aggregate: the conditions block and the
data-points caption are identical to those of the same document with any
narrative, so the numeric display never depends on the narrative text. -/
theorem renderWeather_numeric_independent (r : WeatherRec) :
    (renderWeather ⟨none, r.weather_summary, r.data_points⟩).narrative
        = none ∧
    (renderWeather ⟨none, r.weather_summary, r.data_points⟩).conditions
        = (renderWeather r).conditions ∧
    (renderWeather ⟨none, r.weather_summary, r.data_points⟩).dataPoints
        = (renderWeather r).dataPoints := by
  refine ⟨?_, ?_, rfl⟩
  · simp [renderWeather, showNarrative]
  · simp [renderWeather, showWeatherConditions]

/-! ## Read API and empty-result rendering -/

/-- Modelled from the spec: the read API is not in the shipped sources.
Spec §7: "Query for a nonexistent entity → empty result, not an error
code."  A query filters the flat document collection by its natural key
and returns the list of matches — the return type carries no error
case, so a miss is the empty list. -/
def queryByKey {α : Type} (db : List (Nat × α)) (key : Nat) : List α :=
  (db.filter fun p => p.1 = key).map (·.2)

/-- The four render states of `DraggableRecommendationPanel`:
which blocks are shown for a given (loading, error, response) triple.
`shownRecommendation` is the source's
`recommendations.length > 0 ? recommendations[0] : null` (lines 51-53);
`showNoData` is the `!loading && !error && !recommendation` block
(lines 593-602). -/
structure PanelBlocks (α : Type) where
  showLoading : Bool
  showError : Bool
  shownRecommendation : Option α
  showNoData : Bool
deriving DecidableEq, Repr

/-- The panel `DraggableRecommendationPanel` as a pure view function of its API
hook state: `loading`, `error`, and the (optional) response array. -/
def panelBlocks {α : Type} (loading : Bool) (error : Option String)
    (recs : Option (List α)) : PanelBlocks α :=
  let recommendation : Option α :=
    match recs with
    | some (r :: _) => some r
    | _ => none
  ⟨loading, error.isSome,
   recommendation,
   !loading && !error.isSome && recommendation.isNone⟩

/-- Claim C8 — A read-API query naming a nonexistent key returns the
empty list (an empty result, not an error), and the client renders an
empty response as the no-data state: no error block, no content, the
"No AI analysis available" block shown. -/
theorem query_missing_gives_no_data {α : Type} (db : List (Nat × α))
    (key : Nat) (h : key ∉ db.map Prod.fst) :
    queryByKey db key = [] ∧
    panelBlocks false none (some (queryByKey db key))
      = ⟨false, false, none, true⟩ := by
  have hq : queryByKey db key = [] := by
    simp only [queryByKey, List.map_eq_nil_iff, List.filter_eq_nil_iff]
    intro p hp
    simp only [decide_eq_true_eq]
    intro hkey
    exact h (by simpa [hkey] using List.mem_map_of_mem Prod.fst hp)
  refine ⟨hq, ?_⟩
  rw [hq]
  rfl

/-- Witness for C8: a recommendation store holding documents for keys 1
and 2 queried for the absent key 7. -/
theorem query_missing_gives_no_data_witness :
    queryByKey [(1, "doc A"), (2, "doc B")] 7 = [] ∧
    panelBlocks false none (some (queryByKey [(1, "doc A"), (2, "doc B")] 7))
      = ⟨false, false, none, true⟩ :=
  query_missing_gives_no_data [(1, "doc A"), (2, "doc B")] 7 (by decide)

end KaizenLap

namespace KaizenLap

/-! ## Frontend: LapReview playback state machine -/

/-- The playback state of `LapReview`:
`currentSectionIndex` and `isPlaying` (source lines 37-38). -/
structure PlaybackState where
  currentSectionIndex : Nat
  isPlaying : Bool
deriving DecidableEq, Repr

/-- The user/timer actions that drive the playback state. -/
inductive PlaybackAction where
  | playPause
  | stepNext
  | stepPrev
  | tick
  | sectionClick (name : String)
deriving DecidableEq, Repr

/-- Source lines 76-90 (the `setInterval` body): a timer tick fires only
while playing with a non-empty section list; at the last section it
stops playback and keeps the index, otherwise it advances. -/
def tickStep (n : Nat) (st : PlaybackState) : PlaybackState :=
  if st.isPlaying ∧ 0 < n then
    if n - 1 ≤ st.currentSectionIndex then ⟨st.currentSectionIndex, false⟩
    else ⟨st.currentSectionIndex + 1, true⟩
  else st

/-- Source lines 92-103 (`handlePlayPause`): no-op on an empty list;
pause when playing; otherwise restart from 0 when at (or past) the last
section, then play. -/
def playPauseStep (n : Nat) (st : PlaybackState) : PlaybackState :=
  if n = 0 then st
  else if st.isPlaying then ⟨st.currentSectionIndex, false⟩
  else if n - 1 ≤ st.currentSectionIndex then ⟨0, true⟩
  else ⟨st.currentSectionIndex, true⟩

/-- Source lines 105-114 (`handleStep`): stepping always pauses; the
index moves by `d` only when the destination is inside `[0, n)`. -/
def stepStep (n : Nat) (d : Int) (st : PlaybackState) : PlaybackState :=
  let newIndex : Int := (st.currentSectionIndex : Int) + d
  if 0 ≤ newIndex ∧ newIndex < (n : Int) then ⟨newIndex.toNat, false⟩
  else ⟨st.currentSectionIndex, false⟩

/-- Source lines 116-122 (`handleSectionClick`): clicking a section name
jumps to its index and pauses; an unknown name changes nothing. -/
def sectionClickStep (sections : List String) (name : String)
    (st : PlaybackState) : PlaybackState :=
  match sections.findIdx? (fun s => s = name) with
  | some i => ⟨i, false⟩
  | none => st

/-- One transition of the `LapReview` playback state machine over the
section-name list served for the current lap. -/
def applyAction (sections : List String) (st : PlaybackState) :
    PlaybackAction → PlaybackState
  | .playPause => playPauseStep sections.length st
  | .stepNext => stepStep sections.length 1 st
  | .stepPrev => stepStep sections.length (-1) st
  | .tick => tickStep sections.length st
  | .sectionClick name => sectionClickStep sections name st

/-- A whole interaction: fold a sequence of actions over a state. -/
def runActions (sections : List String) (st : PlaybackState)
    (acts : List PlaybackAction) : PlaybackState :=
  acts.foldl (applyAction sections) st

/-- An index found by `findIdx?` is below the list's length. -/
theorem findIdx?_lt_length {α : Type} (p : α → Bool) :
    ∀ (l : List α) (i : Nat), l.findIdx? p = some i → i < l.length := by
  intro l
  induction l with
  | nil => intro i h; simp [List.findIdx?] at h
  | cons x xs ih =>
    intro i h
    rw [List.findIdx?_cons] at h
    by_cases hp : p x
    · simp [hp] at h
      simp only [List.length_cons]
      omega
    · simp [hp] at h
      obtain ⟨j, hj, rfl⟩ := h
      have := ih j hj
      simp only [List.length_cons]
      omega

/-- Each single action preserves `currentSectionIndex < n`. -/
theorem applyAction_index_lt (sections : List String)
    (hn : 0 < sections.length) (st : PlaybackState)
    (hst : st.currentSectionIndex < sections.length)
    (a : PlaybackAction) :
    (applyAction sections st a).currentSectionIndex < sections.length := by
  cases a with
  | playPause =>
    simp only [applyAction, playPauseStep]
    split
    · exact hst
    · split
      · exact hst
      · split
        · simpa using hn
        · exact hst
  | stepNext =>
    simp only [applyAction, stepStep]
    split
    · rename_i h
      dsimp only
      omega
    · exact hst
  | stepPrev =>
    simp only [applyAction, stepStep]
    split
    · rename_i h
      dsimp only
      omega
    · exact hst
  | tick =>
    simp only [applyAction, tickStep]
    split
    · split
      · exact hst
      · dsimp only
        omega
    · exact hst
  | sectionClick name =>
    simp only [applyAction, sectionClickStep]
    rcases hidx : sections.findIdx? (fun s => s = name) with _ | i
    · exact hst
    · exact findIdx?_lt_length _ sections i hidx

/-- Claim C9 — Over a non-empty section list: (1) from any in-range
state, every sequence of play/pause, next, previous, section-click and
timer-tick actions keeps the current section index within
`[0, sections.length - 1]`; (2) a tick while playing at the last section
stops playback and keeps the index instead of wrapping; (3) stepping
past either end leaves the index unchanged; (4) pressing play while
paused at the last section restarts from index 0. -/
theorem lapReview_playback_safe (sections : List String)
    (hn : 0 < sections.length) :
    (∀ (st : PlaybackState) (acts : List PlaybackAction),
      st.currentSectionIndex < sections.length →
      (runActions sections st acts).currentSectionIndex < sections.length) ∧
    (∀ st : PlaybackState, st.isPlaying = true →
      st.currentSectionIndex = sections.length - 1 →
      tickStep sections.length st = ⟨sections.length - 1, false⟩) ∧
    (∀ p : Bool,
      (stepStep sections.length 1
        ⟨sections.length - 1, p⟩).currentSectionIndex
        = sections.length - 1 ∧
      (stepStep sections.length (-1) ⟨0, p⟩).currentSectionIndex = 0) ∧
    (∀ st : PlaybackState, st.isPlaying = false →
      sections.length - 1 ≤ st.currentSectionIndex →
      playPauseStep sections.length st = ⟨0, true⟩) := by
  refine ⟨?_, ?_, ?_, ?_⟩
  · intro st acts
    induction acts generalizing st with
    | nil => intro h; simpa [runActions] using h
    | cons a rest ih =>
      intro h
      have h1 := applyAction_index_lt sections hn st h a
      simpa [runActions, List.foldl_cons] using ih _ h1
  · intro st hp hidx
    simp [tickStep, hp, hn, hidx]
  · intro p
    constructor
    · simp only [stepStep]
      split
      · rename_i h
        omega
      · rfl
    · simp only [stepStep]
      split
      · rename_i h
        omega
      · rfl
  · intro st hp hidx
    have hn' : sections.length ≠ 0 := by omega
    simp [playPauseStep, hn', hp, hidx]

/-- Witness for C9: a two-section lap; a concrete action sequence keeps
the index in range, a tick at the last section stops playback, steps
past the ends stall, and play at the end restarts from 0. -/
theorem lapReview_playback_safe_witness :
    (runActions ["S1", "S2"] ⟨0, false⟩
        [.playPause, .tick, .tick, .stepNext, .stepPrev,
         .sectionClick "S2"]).currentSectionIndex < 2 ∧
    tickStep 2 ⟨1, true⟩ = ⟨1, false⟩ ∧
    (stepStep 2 1 ⟨1, false⟩).currentSectionIndex = 1 ∧
    (stepStep 2 (-1) ⟨0, false⟩).currentSectionIndex = 0 ∧
    playPauseStep 2 ⟨1, false⟩ = ⟨0, true⟩ := by
  have h := lapReview_playback_safe ["S1", "S2"] (by decide)
  exact ⟨h.1 ⟨0, false⟩ [.playPause, .tick, .tick, .stepNext, .stepPrev,
      .sectionClick "S2"] (by decide),
    h.2.1 ⟨1, true⟩ rfl rfl,
    (h.2.2.1 false).1, (h.2.2.1 false).2,
    h.2.2.2 ⟨1, false⟩ rfl (by decide)⟩

end KaizenLap

namespace KaizenLap

/-! ## Frontend: RaceSelector -/

/-- The component state of `RaceSelector` (source lines 21-25); the
empty string is the "nothing selected" value of each dropdown. -/
structure SelectorState where
  selectedTrack : String
  selectedRace : String
  selectedDriver : String
  selectedLap : String
  isComposite : Bool
deriving DecidableEq, Repr

/-- The selection object emitted to the parent via `onSelectionChange`
(source lines 101-125). -/
structure Selection where
  trackId : String
  raceId : Option String
  driverId : Option String
  lapId : Option String
  isComposite : Bool
deriving DecidableEq, Repr

/-- The dropdown-change events handled by `RaceSelector`.  A driver
change with the value `"composite"` selects the Best Case Composite. -/
inductive SelEvent where
  | trackChange (v : String)
  | raceChange (v : String)
  | driverChange (v : String)
  | lapChange (v : String)
deriving DecidableEq, Repr

/-- The `useEffect` of source lines 98-132: after the state settles it
emits the composite selection when the composite option is on and a
track is chosen, the full lap selection when track, race, driver and
lap are all chosen, and nothing otherwise. -/
def effectEmissions (st : SelectorState) : List (Option Selection) :=
  if st.isComposite ∧ st.selectedTrack ≠ "" then
    [some ⟨st.selectedTrack,
      (if st.selectedRace = "" then none else some st.selectedRace),
      none, none, true⟩]
  else if st.selectedTrack ≠ "" ∧ st.selectedRace ≠ "" ∧
      st.selectedDriver ≠ "" ∧ st.selectedLap ≠ "" then
    [some ⟨st.selectedTrack, some st.selectedRace, some st.selectedDriver,
      some st.selectedLap, false⟩]
  else []

/-- One event of `RaceSelector`: the handler's state update and the
ordered list of `onSelectionChange` calls it produces (the handler's
immediate `onSelectionChange(null)` calls, then the effect's emission on
the settled state).  `handleTrackChange` (lines 37-65) resets race,
driver, lap and the composite flag and emits null; `handleRaceChange`
(lines 67-77) resets driver, lap and the flag and emits null;
`handleDriverChange` (lines 79-95) switches to composite without a reset
emission or resets the lap and emits null; `handleLapChange`
(lines 134-137) only sets the lap. -/
def handleEvent (st : SelectorState) : SelEvent → SelectorState × List (Option Selection)
  | .trackChange v =>
    let st2 : SelectorState := ⟨v, "", "", "", false⟩
    (st2, none :: effectEmissions st2)
  | .raceChange v =>
    let st2 : SelectorState := ⟨st.selectedTrack, v, "", "", false⟩
    (st2, none :: effectEmissions st2)
  | .driverChange v =>
    if v = "composite" then
      let st2 : SelectorState :=
        ⟨st.selectedTrack, st.selectedRace, "", "", true⟩
      (st2, effectEmissions st2)
    else
      let st2 : SelectorState :=
        ⟨st.selectedTrack, st.selectedRace, v, "", false⟩
      (st2, none :: effectEmissions st2)
  | .lapChange v =>
    let st2 : SelectorState :=
      ⟨st.selectedTrack, st.selectedRace, st.selectedDriver, v, st.isComposite⟩
    (st2, effectEmissions st2)

/-- Claim C10 — Changing the track resets race, driver and lap to empty
and the composite flag to false and immediately emits a null selection;
changing the race likewise resets driver and lap and emits null; and a
non-null selection is only ever emitted when either the composite option
is on with a track chosen, or track, race, driver and lap are all
chosen. -/
theorem raceSelector_emission_discipline (st : SelectorState) :
    (∀ v, (handleEvent st (.trackChange v)).1.selectedRace = "" ∧
      (handleEvent st (.trackChange v)).1.selectedDriver = "" ∧
      (handleEvent st (.trackChange v)).1.selectedLap = "" ∧
      (handleEvent st (.trackChange v)).1.isComposite = false ∧
      (handleEvent st (.trackChange v)).2.head? = some none) ∧
    (∀ v, (handleEvent st (.raceChange v)).1.selectedDriver = "" ∧
      (handleEvent st (.raceChange v)).1.selectedLap = "" ∧
      (handleEvent st (.raceChange v)).2.head? = some none) ∧
    (∀ (e : SelEvent) (sel : Selection),
      some sel ∈ (handleEvent st e).2 →
      (sel.isComposite = true ∧ sel.trackId ≠ "") ∨
      (sel.trackId ≠ "" ∧ sel.raceId.isSome ∧ sel.driverId.isSome ∧
        sel.lapId.isSome ∧ sel.isComposite = false)) := by
  have heff : ∀ (st2 : SelectorState) (sel : Selection),
      some sel ∈ effectEmissions st2 →
      (sel.isComposite = true ∧ sel.trackId ≠ "") ∨
      (sel.trackId ≠ "" ∧ sel.raceId.isSome ∧ sel.driverId.isSome ∧
        sel.lapId.isSome ∧ sel.isComposite = false) := by
    intro st2 sel hmem
    simp only [effectEmissions] at hmem
    split at hmem
    · rename_i hcond
      simp only [List.mem_singleton, Option.some.injEq] at hmem
      subst hmem
      exact Or.inl ⟨rfl, hcond.2⟩
    · split at hmem
      · rename_i hcond
        simp only [List.mem_singleton, Option.some.injEq] at hmem
        subst hmem
        exact Or.inr ⟨hcond.1, rfl, rfl, rfl, rfl⟩
      · simp at hmem
  refine ⟨?_, ?_, ?_⟩
  · intro v
    exact ⟨rfl, rfl, rfl, rfl, rfl⟩
  · intro v
    exact ⟨rfl, rfl, rfl⟩
  · intro e sel hmem
    cases e with
    | trackChange v =>
      simp only [handleEvent, List.mem_cons] at hmem
      rcases hmem with h | h
      · exact absurd h (by simp)
      · exact heff _ sel h
    | raceChange v =>
      simp only [handleEvent, List.mem_cons] at hmem
      rcases hmem with h | h
      · exact absurd h (by simp)
      · exact heff _ sel h
    | driverChange v =>
      simp only [handleEvent] at hmem
      split at hmem
      · exact heff _ sel hmem
      · simp only [List.mem_cons] at hmem
        rcases hmem with h | h
        · exact absurd h (by simp)
        · exact heff _ sel h
    | lapChange v =>
      simp only [handleEvent] at hmem
      exact heff _ sel hmem

/-- Witness for C10: from a state with everything chosen, a track change
resets the cascade and first emits null; selecting the composite option
emits a composite selection with its track. -/
theorem raceSelector_emission_discipline_witness :
    ((handleEvent ⟨"1", "2", "3", "4", false⟩ (.trackChange "5")).1.selectedRace
        = "" ∧
      (handleEvent ⟨"1", "2", "3", "4", false⟩
        (.trackChange "5")).1.selectedDriver = "" ∧
      (handleEvent ⟨"1", "2", "3", "4", false⟩
        (.trackChange "5")).1.selectedLap = "" ∧
      (handleEvent ⟨"1", "2", "3", "4", false⟩
        (.trackChange "5")).1.isComposite = false ∧
      (handleEvent ⟨"1", "2", "3", "4", false⟩ (.trackChange "5")).2.head?
        = some none) ∧
    (((⟨"1", none, none, none, true⟩ : Selection).isComposite = true ∧
        (⟨"1", none, none, none, true⟩ : Selection).trackId ≠ "") ∨
      ((⟨"1", none, none, none, true⟩ : Selection).trackId ≠ "" ∧
        (⟨"1", none, none, none, true⟩ : Selection).raceId.isSome ∧
        (⟨"1", none, none, none, true⟩ : Selection).driverId.isSome ∧
        (⟨"1", none, none, none, true⟩ : Selection).lapId.isSome ∧
        (⟨"1", none, none, none, true⟩ : Selection).isComposite = false)) :=
  ⟨(raceSelector_emission_discipline ⟨"1", "2", "3", "4", false⟩).1 "5",
   (raceSelector_emission_discipline ⟨"1", "", "", "", false⟩).2.2
     (.driverChange "composite") ⟨"1", none, none, none, true⟩ (by decide)⟩

end KaizenLap
